import Mathlib

/-!
Shallow embedding of the core of `mouryanbot.py`: the vault store
(`upload_handler`, `start_handler`), the access tracker (`track_user`,
the `users` table operations), the inbound rate limiter (`is_spamming`),
and the broadcast dispatcher (`broadcast_handler`).

Conventions of the embedding:
* The two sqlite tables are Lean lists in row order (`DBState.files`,
  `DBState.users`); a row insert appends, `DELETE` filters,
  `UPDATE ... downloads = downloads + 1` maps over rows.
* `INSERT INTO files` with a colliding primary key raises inside
  `Database.execute`, which catches every exception, logs and returns
  `None`; hence `insertFile` is a no-op when the code already exists.
* Timestamps and durations are natural numbers of milliseconds
  (`0.8` s becomes `800`, `0.05` s becomes `50`).
* Telegram send outcomes are passed in as explicit parameters
  (`SendOutcome` for the retrieval send, a pair of `Attempt`s per
  broadcast recipient: the first attempt and, when the first attempt
  yields `retryAfter`, the single retry).
-/

namespace MouryanBot

/-- A row of the `files` table (schema from `init_db`). -/
structure FileRecord where
  code : String
  file_id : String
  file_unique_id : String
  file_type : String
  file_name : String
  caption : String
  created_at : Nat
  downloads : Nat
  is_active : Bool
deriving DecidableEq

/-- The persistent state: the `files` table and the `users` table
(rows `(user_id, joined_at)`). -/
structure DBState where
  files : List FileRecord
  users : List (Nat × Nat)
deriving DecidableEq

/-- `SELECT ... FROM files WHERE file_unique_id=?` with `fetchone`. -/
def findByUniqueId (files : List FileRecord) (uid : String) : Option FileRecord :=
  files.find? (fun r => r.file_unique_id == uid)

/-- `SELECT * FROM files WHERE code=?` with `fetchone`. -/
def findByCode (files : List FileRecord) (code : String) : Option FileRecord :=
  files.find? (fun r => r.code == code)

/-- `INSERT INTO files VALUES (...)`: `code` is the primary key, so a
colliding insert raises `IntegrityError`; `Database.execute` catches it,
logs and returns `None` — the table is left unchanged. -/
def insertFile (st : DBState) (r : FileRecord) : DBState :=
  if st.files.any (fun x => x.code == r.code) then st
  else { st with files := st.files ++ [r] }

/-- `UPDATE files SET downloads = downloads + 1 WHERE code=?`. -/
def incrementDownloads (st : DBState) (code : String) : DBState :=
  { st with
    files := st.files.map (fun r =>
      if r.code == code then { r with downloads := r.downloads + 1 } else r) }

/-- `INSERT OR IGNORE INTO users (user_id, joined_at) VALUES (?, ?)`
(`track_user`). -/
def trackUsers (users : List (Nat × Nat)) (uid now : Nat) : List (Nat × Nat) :=
  if users.any (fun u => u.1 == uid) then users else users ++ [(uid, now)]

/-- `track_user` applied to the database state. -/
def trackUser (st : DBState) (uid now : Nat) : DBState :=
  { st with users := trackUsers st.users uid now }

/-- `DELETE FROM users WHERE user_id=?`. -/
def removeUser (users : List (Nat × Nat)) (uid : Nat) : List (Nat × Nat) :=
  users.filter (fun u => !(u.1 == uid))

/-- The fields `get_file_info` extracts from an inbound media message. -/
structure FileInfo where
  file_id : String
  file_unique_id : String
  file_type : String
  file_name : String
  caption : String
deriving DecidableEq

/-- The dedup-and-insert core of `upload_handler` (lines 340-352):
look up any row with the fingerprint; if found return its code with
`is_new = False`; otherwise insert a fresh row with `downloads = 0`,
`is_active = 1` and return the generated code with `is_new = True`.
The generated code (`uuid.uuid4().hex[:10]`) is the `genCode`
parameter; it is produced exactly once per call. -/
def upload_put (st : DBState) (info : FileInfo) (genCode : String) (now : Nat) :
    DBState × String × Bool :=
  match findByUniqueId st.files info.file_unique_id with
  | some r => (st, r.code, false)
  | none =>
      let newRec : FileRecord :=
        { code := genCode, file_id := info.file_id,
          file_unique_id := info.file_unique_id, file_type := info.file_type,
          file_name := info.file_name, caption := info.caption,
          created_at := now, downloads := 0, is_active := true }
      (insertFile st newRec, genCode, true)

/-- The whole `upload_handler`: uploads from a sender other than
`ADMIN_ID` are ignored, unrecognized media is reported, otherwise
`upload_put` runs and the link is emitted. -/
def upload_handler (st : DBState) (sender adminId : Nat) (info : Option FileInfo)
    (genCode : String) (now : Nat) : DBState × Option (String × Bool) :=
  if !(sender == adminId) then (st, none)
  else
    match info with
    | none => (st, none)
    | some i =>
        let p := upload_put st i genCode now
        (p.1, some p.2)

/-- Outcome of the platform send in the retrieval path: success,
`TelegramBadRequest` (file deleted/expired), or any other exception. -/
inductive SendOutcome where
  | ok
  | badRequest
  | other
deriving DecidableEq

/-- What `start_handler` reports back to the requester. -/
inductive RetrieveResult where
  | welcome
  | notFound
  | revoked
  | delivered
  | errFileGone
  | errGeneric
deriving DecidableEq

/-- The retrieval portion of `start_handler` (lines 190-216): resolve
the code; not found and revoked rows short-circuit with no write; on a
successful send the `downloads` counter is incremented; a failed send
leaves it untouched. -/
def start_retrieve (st : DBState) (code : String) (send : SendOutcome) :
    DBState × RetrieveResult :=
  match findByCode st.files code with
  | none => (st, .notFound)
  | some r =>
      if r.is_active == false then (st, .revoked)
      else
        match send with
        | .ok => (incrementDownloads st code, .delivered)
        | .badRequest => (st, .errFileGone)
        | .other => (st, .errGeneric)

/-- The whole `start_handler`: `track_user` first, then either the
welcome message (no argument) or the retrieval protocol. -/
def start_handler (st : DBState) (uid now : Nat) (args : Option String)
    (send : SendOutcome) : DBState × RetrieveResult :=
  let st1 := trackUser st uid now
  match args with
  | none => (st1, .welcome)
  | some code => start_retrieve st1 code send

/-- N successive successful retrievals of `code`. -/
def retrieveN (code : String) : Nat → DBState → DBState
  | 0, st => st
  | n + 1, st => retrieveN code n (start_retrieve st code .ok).1

/-- The `downloads` column of the row `code` resolves to (0 if none). -/
def downloadsOf (st : DBState) (code : String) : Nat :=
  ((findByCode st.files code).map (fun r => r.downloads)).getD 0

/-- Classification of a failed `bot.copy_message` call in the broadcast
loop: `TelegramRetryAfter` (carries the wait), `TelegramForbiddenError`,
`TelegramBadRequest`, or any other exception. -/
inductive SendErr where
  | retryAfter (waitMs : Nat)
  | forbidden
  | badRequest
  | other
deriving DecidableEq

/-- One attempt of `bot.copy_message`: success or a classified error. -/
inductive Attempt where
  | ok
  | err (e : SendErr)
deriving DecidableEq

/-- State threaded through one broadcast run: the `users` table, the
`sent` and `failed` counters, and the total time spent in
`asyncio.sleep` (milliseconds). -/
structure BCState where
  users : List (Nat × Nat)
  sent : Nat
  failed : Nat
  elapsedMs : Nat
deriving DecidableEq

/-- One iteration of the `broadcast_handler` loop for a recipient.
The recipient is `(user_id, first attempt, retry attempt)`; the retry
attempt is consulted only when the first attempt raised
`TelegramRetryAfter`.  On first-attempt success: `sent += 1` then
`asyncio.sleep(0.05)`.  On `TelegramRetryAfter e`:
`asyncio.sleep(e.retry_after)`, retry once inside a nested `try` whose
bare `except` counts any failure as `failed += 1` (no delete).  On
`TelegramForbiddenError` or `TelegramBadRequest`: delete the row from
`users` and `failed += 1`.  On any other exception: `failed += 1`. -/
def broadcastStep (st : BCState) (rec : Nat × Attempt × Attempt) : BCState :=
  match rec.2.1 with
  | .ok => { st with sent := st.sent + 1, elapsedMs := st.elapsedMs + 50 }
  | .err (.retryAfter w) =>
      match rec.2.2 with
      | .ok => { st with sent := st.sent + 1, elapsedMs := st.elapsedMs + w }
      | .err _ => { st with failed := st.failed + 1, elapsedMs := st.elapsedMs + w }
  | .err .forbidden =>
      { st with users := removeUser st.users rec.1, failed := st.failed + 1 }
  | .err .badRequest =>
      { st with users := removeUser st.users rec.1, failed := st.failed + 1 }
  | .err .other => { st with failed := st.failed + 1 }

/-- The `broadcast_handler` loop over the snapshot taken by
`SELECT user_id FROM users` at run start (counters start at 0). -/
def broadcast_run (snapshot : List (Nat × Attempt × Attempt)) (st : BCState) :
    BCState :=
  snapshot.foldl broadcastStep st

/-- `is_spamming`: returns the verdict and the updated `RATE_LIMIT`
map (a list of `(user_id, lastMs)` entries); under the 800 ms window
the verdict is `true` and the map is untouched, otherwise the entry is
refreshed. -/
def is_spamming (rl : List (Nat × Nat)) (uid nowMs : Nat) :
    Bool × List (Nat × Nat) :=
  let last := ((rl.find? (fun p => p.1 == uid)).map (fun p => p.2)).getD 0
  if nowMs - last < 800 then (true, rl)
  else (false, (rl.filter (fun p => !(p.1 == uid))) ++ [(uid, nowMs)])

/-- Bool test for `needle in haystack` on character lists (Python `in`
on strings). -/
def strStarts : List Char → List Char → Bool
  | _, [] => true
  | [], _ :: _ => false
  | c :: cs, d :: ds => c == d && strStarts cs ds

/-- Substring containment on character lists. -/
def strContains (t k : List Char) : Bool :=
  strStarts t k ||
    match t with
    | [] => false
    | _ :: rest => strContains rest k

def owner_keywords : List String :=
  ["owner", "creator", "developer", "who made you", "admin info"]

def greetings_words : List String :=
  ["hi", "hello", "hey", "good morning", "hola", "start"]

/-- The replies `chat_intelligence` can produce. -/
inductive ChatReply where
  | ignored
  | ownerInfo
  | greeting
  | thanks
  | helpText
  | fallback
  | silent
deriving DecidableEq

/-- The keyword branches of `chat_intelligence` on the lowercased,
stripped text: owner keywords, exact greetings, thanks, help, then the
private-chat fallback.  These branches only choose the reply; none of
them touches the database. -/
def chatReply (t : String) (isPrivate : Bool) : ChatReply :=
  if owner_keywords.any (fun k => strContains t.toList k.toList) then .ownerInfo
  else if greetings_words.any (fun g => t == g) then .greeting
  else if strContains t.toList "thank".toList ||
      strContains t.toList "thx".toList then .thanks
  else if strContains t.toList "help".toList then .helpText
  else if isPrivate then .fallback
  else .silent

/-- The free-text handler `chat_intelligence` (lines 283-322): spam
check, then keyword branches; it performs no database write, so the
`DBState` passes through. -/
def chat_intelligence (rl : List (Nat × Nat)) (st : DBState) (uid nowMs : Nat)
    (text : String) (isPrivate : Bool) :
    List (Nat × Nat) × DBState × ChatReply :=
  let sp := is_spamming rl uid nowMs
  if sp.1 then (sp.2, st, .ignored)
  else (sp.2, st, chatReply text.toLower.trim isPrivate)

/-- Bool test for membership of a user id in the `users` table. -/
def hasUser (users : List (Nat × Nat)) (uid : Nat) : Bool :=
  users.any (fun u => u.1 == uid)

/-! ## Helper lemmas -/

/-- Every branch of the broadcast loop body increments exactly one of
the two counters by exactly one. -/
theorem broadcastStep_counters (st : BCState) (rec : Nat × Attempt × Attempt) :
    (broadcastStep st rec).sent + (broadcastStep st rec).failed
      = st.sent + st.failed + 1 := by
  rcases rec with ⟨uid, first, retry⟩
  cases first with
  | ok => simp only [broadcastStep]; omega
  | err e =>
    cases e with
    | retryAfter w =>
      cases retry with
      | ok => simp only [broadcastStep]; omega
      | err e2 => simp only [broadcastStep]; omega
    | forbidden => simp only [broadcastStep]; omega
    | badRequest => simp only [broadcastStep]; omega
    | other => simp only [broadcastStep]; omega

theorem broadcast_run_counters (snapshot : List (Nat × Attempt × Attempt)) :
    ∀ st : BCState,
      (broadcast_run snapshot st).sent + (broadcast_run snapshot st).failed
        = st.sent + st.failed + snapshot.length := by
  induction snapshot with
  | nil => intro st; simp [broadcast_run]
  | cons rec rest ih =>
    intro st
    have h := ih (broadcastStep st rec)
    have h2 := broadcastStep_counters st rec
    simp only [broadcast_run] at h ⊢
    simp only [List.foldl_cons, List.length_cons]
    omega

theorem insertFile_users (st : DBState) (r : FileRecord) :
    (insertFile st r).users = st.users := by
  unfold insertFile; split <;> rfl

theorem upload_put_users (st : DBState) (info : FileInfo) (gen : String)
    (now : Nat) : (upload_put st info gen now).1.users = st.users := by
  rcases h : findByUniqueId st.files info.file_unique_id with _ | r <;>
    simp [upload_put, h, insertFile_users]

theorem start_retrieve_users (st : DBState) (code : String)
    (send : SendOutcome) : (start_retrieve st code send).1.users = st.users := by
  rcases h : findByCode st.files code with _ | r
  · simp [start_retrieve, h]
  · cases hr : r.is_active <;> cases send <;>
      simp [start_retrieve, h, hr, incrementDownloads]

theorem trackUsers_mem (users : List (Nat × Nat)) (uid now : Nat) :
    ∀ u ∈ users, u ∈ trackUsers users uid now := by
  intro u hu
  unfold trackUsers
  split
  · exact hu
  · exact List.mem_append_left _ hu

theorem start_handler_users_mem (st : DBState) (uid now : Nat)
    (args : Option String) (send : SendOutcome) :
    ∀ u ∈ st.users, u ∈ (start_handler st uid now args send).1.users := by
  intro u hu
  cases args with
  | none => exact trackUsers_mem st.users uid now u hu
  | some code =>
    show u ∈ (start_retrieve (trackUser st uid now) code send).1.users
    rw [start_retrieve_users]
    exact trackUsers_mem st.users uid now u hu

theorem hasUser_trackUsers (users : List (Nat × Nat)) (uid now : Nat) :
    hasUser (trackUsers users uid now) uid = true := by
  unfold trackUsers hasUser
  split
  · assumption
  · simp

theorem upload_handler_users (st : DBState) (sender adminId : Nat)
    (info : Option FileInfo) (gen : String) (now : Nat) :
    (upload_handler st sender adminId info gen now).1.users = st.users := by
  unfold upload_handler
  split
  · rfl
  · cases info with
    | none => rfl
    | some i => exact upload_put_users st i gen now

theorem chat_intelligence_state (rl : List (Nat × Nat)) (st : DBState)
    (uid nowMs : Nat) (text : String) (priv : Bool) :
    (chat_intelligence rl st uid nowMs text priv).2.1 = st := by
  cases h : (is_spamming rl uid nowMs).1 <;> simp [chat_intelligence, h]

/-! ## Claims -/

/-- C2: For every broadcast run over a recipient snapshot taken at run
start, each recipient is counted exactly once as sent or failed, so the
reported `sent + failed` equals the size of the snapshot. -/
theorem broadcast_conservation (snapshot : List (Nat × Attempt × Attempt))
    (users0 : List (Nat × Nat)) :
    (broadcast_run snapshot ⟨users0, 0, 0, 0⟩).sent
      + (broadcast_run snapshot ⟨users0, 0, 0, 0⟩).failed
      = snapshot.length := by
  have h := broadcast_run_counters snapshot ⟨users0, 0, 0, 0⟩
  simpa using h

/-- C3: On a rate-limit error carrying wait `w`, the dispatcher sleeps
exactly `w` and retries exactly once: a successful retry is counted as
sent, a retry failing for any reason is counted as failed, with no
further retry (the step ends there either way). -/
theorem broadcast_retry_once (st : BCState) (uid w : Nat) (r : Attempt) :
    (broadcastStep st (uid, .err (.retryAfter w), r)).elapsedMs
        = st.elapsedMs + w
    ∧ (r = .ok →
        broadcastStep st (uid, .err (.retryAfter w), r)
          = { st with sent := st.sent + 1, elapsedMs := st.elapsedMs + w })
    ∧ (∀ e : SendErr, r = .err e →
        broadcastStep st (uid, .err (.retryAfter w), r)
          = { st with failed := st.failed + 1,
                      elapsedMs := st.elapsedMs + w }) := by
  refine ⟨?_, ?_, ?_⟩
  · cases r <;> rfl
  · intro h; subst h; rfl
  · intro e he; subst he; rfl

theorem broadcast_retry_once_witness :
    broadcastStep ⟨[(1, 0)], 0, 0, 0⟩ (1, .err (.retryAfter 2000), .ok)
      = ⟨[(1, 0)], 1, 0, 2000⟩ :=
  (broadcast_retry_once ⟨[(1, 0)], 0, 0, 0⟩ 1 2000 .ok).2.1 rfl

/-- C10: When the single retry after a rate-limit wait fails — with any
error, including the permanent `forbidden` — the recipient is only
counted as failed; the user registry is untouched on the retry path. -/
theorem retry_failure_no_prune (st : BCState) (uid w : Nat) (e : SendErr) :
    broadcastStep st (uid, .err (.retryAfter w), .err e)
      = { st with failed := st.failed + 1, elapsedMs := st.elapsedMs + w } :=
  rfl

/-- C8 counterexample: a recipient that is rate-limited (wait 2000 ms)
and then succeeds on the retry is counted as sent, yet the run sleeps
only the 2000 ms wait — the 50 ms pacing interval is not added after a
retry-path success, contradicting the claim that every sent recipient
is followed by the pacing wait. -/
theorem pacing_missing_on_retry_cex :
    broadcast_run [(1, .err (.retryAfter 2000), .ok)] ⟨[(1, 0)], 0, 0, 0⟩
        = ⟨[(1, 0)], 1, 0, 2000⟩
      ∧ (2000 : Nat) ≠ 2000 + 50 := by
  exact ⟨rfl, by decide⟩

/-- C8 amended: the 50 ms pacing sleep follows only a first-attempt
success; a recipient sent via the retry path after a rate-limit wait
`w` adds exactly `w` to the elapsed time, with no pacing interval. -/
theorem pacing_first_attempt_only (st : BCState) (uid w : Nat) (a : Attempt) :
    broadcastStep st (uid, .ok, a)
        = { st with sent := st.sent + 1, elapsedMs := st.elapsedMs + 50 }
      ∧ broadcastStep st (uid, .err (.retryAfter w), .ok)
        = { st with sent := st.sent + 1, elapsedMs := st.elapsedMs + w } :=
  ⟨rfl, rfl⟩

/-- C4: a first-attempt permanent failure (`TelegramForbiddenError` or
`TelegramBadRequest`) deletes the recipient's row from the users table
and counts the recipient as failed; every other modelled operation
(the other broadcast branches, `upload_put`, `start_retrieve`,
`start_handler` with its `track_user`) leaves existing user rows in
place, so this prune is the only deletion of a UserRecord. -/
theorem permanent_failure_prunes (st : BCState) (uid w : Nat) (a : Attempt)
    (dbst : DBState) (info : FileInfo) (gen code : String) (now uid2 : Nat)
    (send : SendOutcome) (args : Option String) :
    broadcastStep st (uid, .err .forbidden, a)
        = { st with users := removeUser st.users uid, failed := st.failed + 1 }
    ∧ broadcastStep st (uid, .err .badRequest, a)
        = { st with users := removeUser st.users uid, failed := st.failed + 1 }
    ∧ (broadcastStep st (uid, .ok, a)).users = st.users
    ∧ (broadcastStep st (uid, .err .other, a)).users = st.users
    ∧ (broadcastStep st (uid, .err (.retryAfter w), a)).users = st.users
    ∧ (upload_put dbst info gen now).1.users = dbst.users
    ∧ (start_retrieve dbst code send).1.users = dbst.users
    ∧ (∀ u ∈ dbst.users,
        u ∈ (start_handler dbst uid2 now args send).1.users) := by
  refine ⟨rfl, rfl, rfl, rfl, ?_, upload_put_users dbst info gen now,
    start_retrieve_users dbst code send,
    start_handler_users_mem dbst uid2 now args send⟩
  cases a <;> rfl

theorem permanent_failure_prunes_witness :
    (42, 5) ∈ (start_handler ⟨[], [(42, 5)]⟩ 7 9 none .ok).1.users :=
  (permanent_failure_prunes ⟨[], 0, 0, 0⟩ 1 10 .ok ⟨[], [(42, 5)]⟩
    ⟨"f", "u", "photo", "n", ""⟩ "g" "c" 9 7 .ok none).2.2.2.2.2.2.2
    (42, 5) (by simp)

theorem find_map_inc (l : List FileRecord) (code : String) :
    (l.map (fun r =>
        if r.code == code then { r with downloads := r.downloads + 1 }
        else r)).find? (fun r => r.code == code)
      = (l.find? (fun r => r.code == code)).map
          (fun r => { r with downloads := r.downloads + 1 }) := by
  rw [List.find?_map]
  have hp : ((fun r : FileRecord => r.code == code) ∘ (fun r =>
      if r.code == code then { r with downloads := r.downloads + 1 } else r))
      = fun r : FileRecord => r.code == code := by
    funext r
    by_cases h : r.code = code <;> simp [Function.comp, h]
  rw [hp]
  rcases hf : l.find? (fun r => r.code == code) with _ | r
  · rw [hf]; rfl
  · rw [hf]
    have hr : r.code = code := by simpa using List.find?_some hf
    simp [hr]

theorem findByCode_increment (st : DBState) (code : String) :
    findByCode (incrementDownloads st code).files code
      = (findByCode st.files code).map
          (fun r => { r with downloads := r.downloads + 1 }) :=
  find_map_inc st.files code

theorem retrieveN_find (code : String) (N : Nat) :
    ∀ (st : DBState) (r : FileRecord),
      findByCode st.files code = some r → r.is_active = true →
      findByCode (retrieveN code N st).files code
        = some { r with downloads := r.downloads + N } := by
  induction N with
  | zero => intro st r h ha; exact h
  | succ n ih =>
    intro st r h ha
    have hstep : (start_retrieve st code .ok).1 = incrementDownloads st code :=
      by simp [start_retrieve, h, ha]
    have h2 : findByCode (incrementDownloads st code).files code
        = some { r with downloads := r.downloads + 1 } := by
      rw [findByCode_increment, h]; rfl
    have h3 := ih (incrementDownloads st code)
      { r with downloads := r.downloads + 1 } h2 ha
    show findByCode (retrieveN code n (start_retrieve st code .ok).1).files code
      = some { r with downloads := r.downloads + (n + 1) }
    rw [hstep, h3]
    have harith : r.downloads + 1 + n = r.downloads + (n + 1) := by omega
    simp [harith]

/-- C5: N successful retrievals of an active code raise its `downloads`
by exactly N; retrieving a revoked code reports revoked and leaves the
whole state unchanged; a failed platform send (bad request or any other
exception) leaves the state unchanged, so the counter only moves on a
successful send. -/
theorem download_accounting (st : DBState) (code : String) (r : FileRecord)
    (N : Nat) (s : SendOutcome) :
    (findByCode st.files code = some r → r.is_active = true →
      downloadsOf (retrieveN code N st) code = r.downloads + N)
    ∧ (findByCode st.files code = some r → r.is_active = false →
      start_retrieve st code s = (st, .revoked))
    ∧ (findByCode st.files code = some r → r.is_active = true → ¬ s = .ok →
      (start_retrieve st code s).1 = st) := by
  refine ⟨?_, ?_, ?_⟩
  · intro h ha
    unfold downloadsOf
    rw [retrieveN_find code N st r h ha]
    rfl
  · intro h ha
    simp [start_retrieve, h, ha]
  · intro h ha hs
    cases s with
    | ok => exact absurd rfl hs
    | badRequest => simp [start_retrieve, h, ha]
    | other => simp [start_retrieve, h, ha]

theorem download_accounting_witness :
    downloadsOf
        (retrieveN "c1" 3
          ⟨[⟨"c1", "fid", "fp1", "document", "n", "", 0, 5, true⟩], []⟩) "c1"
      = 5 + 3 :=
  (download_accounting
    ⟨[⟨"c1", "fid", "fp1", "document", "n", "", 0, 5, true⟩], []⟩ "c1"
    ⟨"c1", "fid", "fp1", "document", "n", "", 0, 5, true⟩ 3 .ok).1 rfl rfl

/-- C1: from a state holding no record with the fingerprint, two
uploads of the same content yield the generated code twice (`is_new`
true then false), the second call leaves the state unchanged, and
exactly one stored record carries that fingerprint.  The hypotheses say
the fingerprint is fresh and the generated code does not collide with
an existing code. -/
theorem dedup_idempotent (st : DBState) (info : FileInfo) (gen gen2 : String)
    (now now2 : Nat)
    (hfp : findByUniqueId st.files info.file_unique_id = none)
    (hcode : st.files.any (fun x => x.code == gen) = false) :
    (upload_put st info gen now).2 = (gen, true)
    ∧ upload_put (upload_put st info gen now).1 info gen2 now2
        = ((upload_put st info gen now).1, gen, false)
    ∧ ((upload_put (upload_put st info gen now).1 info gen2
          now2).1.files.filter
        (fun r => r.file_unique_id == info.file_unique_id)).length = 1 := by
  have h1 : upload_put st info gen now
      = (⟨st.files ++ [⟨gen, info.file_id, info.file_unique_id,
            info.file_type, info.file_name, info.caption, now, 0, true⟩],
          st.users⟩, gen, true) := by
    simp [upload_put, hfp, insertFile, hcode]
  have h2 : findByUniqueId
      (st.files ++ [⟨gen, info.file_id, info.file_unique_id, info.file_type,
        info.file_name, info.caption, now, 0, true⟩])
      info.file_unique_id
      = some ⟨gen, info.file_id, info.file_unique_id, info.file_type,
          info.file_name, info.caption, now, 0, true⟩ := by
    unfold findByUniqueId at hfp ⊢
    rw [List.find?_append, hfp]
    simp
  have hnil : st.files.filter
      (fun r => r.file_unique_id == info.file_unique_id) = [] := by
    apply List.filter_eq_nil_iff.mpr
    intro a ha
    have := (List.find?_eq_none.mp hfp) a ha
    simpa using this
  refine ⟨by rw [h1], ?_, ?_⟩
  · rw [h1]
    simp [upload_put, h2]
  · rw [h1]
    simp only [upload_put, h2]
    rw [List.filter_append, hnil]
    simp

theorem dedup_idempotent_witness :
    upload_put (upload_put ⟨[], []⟩ ⟨"fid", "fp1", "document", "n", ""⟩
        "c1" 3).1 ⟨"fid", "fp1", "document", "n", ""⟩ "c2" 4
      = ((upload_put ⟨[], []⟩ ⟨"fid", "fp1", "document", "n", ""⟩ "c1" 3).1,
          "c1", false) :=
  (dedup_idempotent ⟨[], []⟩ ⟨"fid", "fp1", "document", "n", ""⟩ "c1" "c2"
    3 4 rfl rfl).2.1

/-- C6 counterexample: with a single *inactive* record for fingerprint
`fp1`, re-uploading content with fingerprint `fp1` returns the inactive
record's code `oldcode` with `is_new = false` and inserts nothing: the
dedup query has no `is_active` filter, so the claim that such an upload
creates a new record is false. -/
theorem dedup_inactive_cex :
    upload_put
        ⟨[⟨"oldcode", "fid", "fp1", "document", "n", "", 0, 0, false⟩], []⟩
        ⟨"fid2", "fp1", "document", "n2", ""⟩ "newcode" 7
      = (⟨[⟨"oldcode", "fid", "fp1", "document", "n", "", 0, 0, false⟩], []⟩,
          "oldcode", false) := rfl

/-- C6 amended: the dedup lookup matches any record with the
fingerprint regardless of its `is_active` flag — whenever the lookup
finds a record (active or revoked), `put` returns that record's code
with `is_new = false` and the state is unchanged, so the one-record-per-
fingerprint invariant is not restricted to active records. -/
theorem dedup_matches_any_record (st : DBState) (info : FileInfo)
    (gen : String) (now : Nat) (r : FileRecord)
    (h : findByUniqueId st.files info.file_unique_id = some r) :
    upload_put st info gen now = (st, r.code, false) := by
  simp [upload_put, h]

theorem dedup_matches_any_record_witness :
    upload_put ⟨[⟨"oc", "fid", "fp2", "document", "n", "", 0, 0, false⟩], []⟩
        ⟨"fid3", "fp2", "document", "m", ""⟩ "nc" 8
      = (⟨[⟨"oc", "fid", "fp2", "document", "n", "", 0, 0, false⟩], []⟩,
          "oc", false) :=
  dedup_matches_any_record
    ⟨[⟨"oc", "fid", "fp2", "document", "n", "", 0, 0, false⟩], []⟩
    ⟨"fid3", "fp2", "document", "m", ""⟩ "nc" 8
    ⟨"oc", "fid", "fp2", "document", "n", "", 0, 0, false⟩ rfl

/-- C7 counterexample: a fresh upload (fingerprint `fpB`) whose
generated code `c0` collides with an existing record's code reports
`is_new = true` yet inserts nothing — the colliding `INSERT` raises
inside `Database.execute`, which swallows the exception — so the claim
that code generation is retried until insertion succeeds is false. -/
theorem collision_no_retry_cex :
    upload_put ⟨[⟨"c0", "fid", "fpA", "document", "n", "", 0, 0, true⟩], []⟩
        ⟨"fidB", "fpB", "video", "m", ""⟩ "c0" 9
      = (⟨[⟨"c0", "fid", "fpA", "document", "n", "", 0, 0, true⟩], []⟩,
          "c0", true)
    ∧ (upload_put ⟨[⟨"c0", "fid", "fpA", "document", "n", "", 0, 0, true⟩],
          []⟩ ⟨"fidB", "fpB", "video", "m", ""⟩ "c0" 9).1.files.any
        (fun r => r.file_unique_id == "fpB") = false :=
  ⟨rfl, rfl⟩

/-- C7 amended: the code is generated exactly once per upload with no
retry; when the fingerprint is fresh but the generated code collides
with an existing record's code, the insert is silently swallowed by the
storage layer and `put` still reports the colliding code with
`is_new = true` while the state is unchanged (no record inserted). -/
theorem collision_insert_swallowed (st : DBState) (info : FileInfo)
    (gen : String) (now : Nat)
    (hfp : findByUniqueId st.files info.file_unique_id = none)
    (hcol : st.files.any (fun x => x.code == gen) = true) :
    upload_put st info gen now = (st, gen, true) := by
  simp [upload_put, hfp, insertFile, hcol]

theorem collision_insert_swallowed_witness :
    upload_put ⟨[⟨"c9", "fid", "fpC", "audio", "n", "", 0, 0, true⟩], []⟩
        ⟨"fidD", "fpD", "photo", "m", ""⟩ "c9" 11
      = (⟨[⟨"c9", "fid", "fpC", "audio", "n", "", 0, 0, true⟩], []⟩,
          "c9", true) :=
  collision_insert_swallowed
    ⟨[⟨"c9", "fid", "fpC", "audio", "n", "", 0, 0, true⟩], []⟩
    ⟨"fidD", "fpD", "photo", "m", ""⟩ "c9" 11 rfl rfl

/-- C9 counterexample: user 42's first interaction is free text (or a
media upload from a non-admin); neither handler calls `track_user`, so
the users table stays empty and the user is not in the broadcast
recipient registry, contradicting creation on any first interaction. -/
theorem track_on_first_interaction_cex :
    (chat_intelligence [] ⟨[], []⟩ 42 1000 "hello there" true).2.1.users = []
    ∧ (upload_handler ⟨[], []⟩ 42 7 (some ⟨"f", "u", "photo", "n", ""⟩)
        "g" 0).1.users = [] := by
  exact ⟨rfl, rfl⟩

/-- C9 amended: a UserRecord is created only by the start command
(`start_handler` runs `track_user`, so afterwards the user is in the
registry); the free-text handler and the upload handler never touch the
users table. -/
theorem user_created_only_on_start (st : DBState) (uid now nowMs : Nat)
    (args : Option String) (send : SendOutcome) (rl : List (Nat × Nat))
    (text : String) (priv : Bool) (sender adminId : Nat)
    (info : Option FileInfo) (gen : String) :
    hasUser (start_handler st uid now args send).1.users uid = true
    ∧ (chat_intelligence rl st uid nowMs text priv).2.1.users = st.users
    ∧ (upload_handler st sender adminId info gen now).1.users = st.users := by
  refine ⟨?_, ?_, upload_handler_users st sender adminId info gen now⟩
  · cases args with
    | none => exact hasUser_trackUsers st.users uid now
    | some code =>
      show hasUser (start_retrieve (trackUser st uid now) code send).1.users
        uid = true
      rw [start_retrieve_users]
      exact hasUser_trackUsers st.users uid now
  · rw [chat_intelligence_state]

end MouryanBot
